import Mathlib

/-!
Verification of the center-wrap decision engine of the three-region header bar
(`designer-header.component.ts` and `topbar.component.ts`; the two files carry
textually identical copies of `shouldWrapCenter`, `getPxNumber`,
`measureMinWidthOfFlexRow` and the `scheduleLayoutCheck` scheduler, so a single
embedding covers both).

Measured widths are modelled as rational numbers; a JavaScript number that may
additionally be `NaN` or `±Infinity` is modelled by `JSNum`.  All arithmetic
the decision function performs (subtraction, doubling, halving, comparison) is
exact on the values involved, so `ℚ` is a faithful carrier.
-/

/-- A JavaScript number as seen by `Number.isFinite`: either a finite value
(carried as a rational) or one of the non-finite values `NaN`, `+Infinity`,
`-Infinity`. -/
inductive JSNum where
  | finite (q : ℚ)
  | nan
  | posInf
  | negInf
deriving DecidableEq

/-- `Number.isFinite` on a `JSNum`. -/
def JSNum.isFinite : JSNum → Bool
  | .finite _ => true
  | _ => false

/-- The sanitization `Number.isFinite(x) ? x : 0` applied at the top of
`shouldWrapCenter` to each of its five fields. -/
def JSNum.sanitize : JSNum → ℚ
  | .finite q => q
  | _ => 0

/-- The parameter object of `shouldWrapCenter`
(`{containerWidth, leftWidth, rightWidth, centerContentWidth, gap}`). -/
structure WrapParams where
  containerWidth : JSNum
  leftWidth : JSNum
  rightWidth : JSNum
  centerContentWidth : JSNum
  gap : JSNum
deriving DecidableEq

/-- Embedding of `shouldWrapCenter` (designer-header.component.ts lines 19-45;
the copy in topbar.component.ts lines 56-80 is identical): sanitize the five
fields, return `false` on a degenerate container or center, wrap when the
remaining space after the center and two gaps is non-positive, otherwise wrap
exactly when one side exceeds its half share. -/
def shouldWrapCenter (params : WrapParams) : Bool :=
  let containerWidth := params.containerWidth.sanitize
  let leftWidth := params.leftWidth.sanitize
  let rightWidth := params.rightWidth.sanitize
  let centerContentWidth := params.centerContentWidth.sanitize
  let gap := params.gap.sanitize
  if containerWidth ≤ 0 ∨ centerContentWidth ≤ 0 then false
  else
    let remainingForSides := containerWidth - centerContentWidth - 2 * gap
    if remainingForSides ≤ 0 then true
    else
      let perSide := remainingForSides / 2
      decide (leftWidth > perSide ∨ rightWidth > perSide)

/-- A snapshot all of whose five fields are finite numbers. -/
def mkFiniteParams (cw lw rw cc g : ℚ) : WrapParams :=
  { containerWidth := .finite cw
    leftWidth := .finite lw
    rightWidth := .finite rw
    centerContentWidth := .finite cc
    gap := .finite g }

theorem shouldWrapCenter_finite_iff (cw lw rw cc g : ℚ) (hcw : 0 < cw) (hcc : 0 < cc) :
    shouldWrapCenter (mkFiniteParams cw lw rw cc g) = true ↔
      (cw - cc - 2 * g ≤ 0 ∨
        (cw - cc - 2 * g) / 2 < lw ∨ (cw - cc - 2 * g) / 2 < rw) := by
  have hneg : ¬ (cw ≤ 0 ∨ cc ≤ 0) := by
    push_neg
    exact ⟨hcw, hcc⟩
  by_cases hr : cw - cc - 2 * g ≤ 0
  · simp [shouldWrapCenter, mkFiniteParams, JSNum.sanitize, hneg, hr]
  · simp [shouldWrapCenter, mkFiniteParams, JSNum.sanitize, hneg, hr]

theorem shouldWrapCenter_true_pos (cw lw rw cc g : ℚ)
    (h : shouldWrapCenter (mkFiniteParams cw lw rw cc g) = true) : 0 < cw ∧ 0 < cc := by
  by_contra hcon
  have hle : cw ≤ 0 ∨ cc ≤ 0 := by
    push_neg at hcon
    rcases le_or_lt cw 0 with hc | hc
    · exact Or.inl hc
    · exact Or.inr (hcon hc)
  have : shouldWrapCenter (mkFiniteParams cw lw rw cc g) = false := by
    simp [shouldWrapCenter, mkFiniteParams, JSNum.sanitize, hle]
  rw [this] at h
  exact Bool.false_ne_true h

/-- Claim C1: for every snapshot whose five fields are finite with
`containerWidth > 0` and `centerContentWidth > 0`, `shouldWrapCenter` returns
`true` iff `remainingForSides = containerWidth - centerContentWidth - 2*gap`
is `≤ 0`, or `leftWidth > remainingForSides/2`, or
`rightWidth > remainingForSides/2`; equality with the half share does not
wrap (the inequalities are strict). -/
theorem C1_wrap_decision_iff (cw lw rw cc g : ℚ) (hcw : 0 < cw) (hcc : 0 < cc) :
    shouldWrapCenter (mkFiniteParams cw lw rw cc g) = true ↔
      (cw - cc - 2 * g ≤ 0 ∨
        lw > (cw - cc - 2 * g) / 2 ∨ rw > (cw - cc - 2 * g) / 2) :=
  shouldWrapCenter_finite_iff cw lw rw cc g hcw hcc

theorem C1_wrap_decision_iff_witness :
    (0 : ℚ) < 1000 ∧ (0 : ℚ) < 300 ∧
      (shouldWrapCenter (mkFiniteParams 1000 260 240 300 8) = true ↔
        ((1000 : ℚ) - 300 - 2 * 8 ≤ 0 ∨
          (260 : ℚ) > (1000 - 300 - 2 * 8) / 2 ∨
          (240 : ℚ) > (1000 - 300 - 2 * 8) / 2)) :=
  ⟨by norm_num, by norm_num,
    C1_wrap_decision_iff 1000 260 240 300 8 (by norm_num) (by norm_num)⟩

/-- Claim C2: whenever the (finite) container width or center content width is
`≤ 0`, `shouldWrapCenter` returns `false`, regardless of the other three
fields — even when those are non-finite. -/
theorem C2_degenerate_false (cw cc : ℚ) (lw rw g : JSNum) (h : cw ≤ 0 ∨ cc ≤ 0) :
    shouldWrapCenter
      { containerWidth := .finite cw, leftWidth := lw, rightWidth := rw,
        centerContentWidth := .finite cc, gap := g } = false := by
  simp [shouldWrapCenter, JSNum.sanitize, h]

theorem C2_degenerate_false_witness :
    ((0 : ℚ) ≤ 0 ∨ (5 : ℚ) ≤ 0) ∧
      shouldWrapCenter
        { containerWidth := .finite 0, leftWidth := .nan, rightWidth := .posInf,
          centerContentWidth := .finite 5, gap := .negInf } = false :=
  ⟨Or.inl le_rfl, C2_degenerate_false 0 5 .nan .posInf .negInf (Or.inl le_rfl)⟩

/-- Claim C3 fails at non-positive container widths: at
`containerWidth = 100` (left 200, right 0, center 10, gap 0) the decision is
`true`, yet at the smaller `containerWidth = 0` the degenerate guard makes it
`false`, so shrinking the container can un-wrap. -/
theorem C3_monotonicity_counterexample :
    shouldWrapCenter (mkFiniteParams 100 200 0 10 0) = true ∧
      (0 : ℚ) < 100 ∧
      shouldWrapCenter (mkFiniteParams 0 200 0 10 0) = false := by
  refine ⟨?_, by norm_num, ?_⟩ <;>
    norm_num [shouldWrapCenter, mkFiniteParams, JSNum.sanitize]

/-- Claim C3 as amended: the wrap decision is monotone when shrinking the
container within positive widths — if the decision is `true` at `W`, it is
`true` at every `W'` with `0 < W' < W` (the unrestricted statement fails at
`W' ≤ 0`, where the degenerate guard returns `false`). -/
theorem C3_monotonicity_amended (lw rw cc g W W' : ℚ) (h0 : 0 < W') (hlt : W' < W)
    (h : shouldWrapCenter (mkFiniteParams W lw rw cc g) = true) :
    shouldWrapCenter (mkFiniteParams W' lw rw cc g) = true := by
  obtain ⟨hW, hcc⟩ := shouldWrapCenter_true_pos W lw rw cc g h
  rw [shouldWrapCenter_finite_iff W lw rw cc g hW hcc] at h
  rw [shouldWrapCenter_finite_iff W' lw rw cc g h0 hcc]
  by_cases hr : W' - cc - 2 * g ≤ 0
  · exact Or.inl hr
  · push_neg at hr
    rcases h with h | h | h
    · exact absurd (lt_of_lt_of_le (by linarith) h) (by linarith)
    · exact Or.inr (Or.inl (by linarith))
    · exact Or.inr (Or.inr (by linarith))

theorem C3_monotonicity_amended_witness :
    (0 : ℚ) < 50 ∧ (50 : ℚ) < 100 ∧
      shouldWrapCenter (mkFiniteParams 100 200 0 10 0) = true ∧
      shouldWrapCenter (mkFiniteParams 50 200 0 10 0) = true :=
  ⟨by norm_num, by norm_num,
    by norm_num [shouldWrapCenter, mkFiniteParams, JSNum.sanitize],
    C3_monotonicity_amended 200 0 10 0 100 50 (by norm_num) (by norm_num)
      (by norm_num [shouldWrapCenter, mkFiniteParams, JSNum.sanitize])⟩

theorem sanitize_eq_zero_of_not_finite (n : JSNum) (h : n.isFinite = false) :
    n.sanitize = 0 := by
  cases n <;> simp_all [JSNum.isFinite, JSNum.sanitize]

theorem shouldWrapCenter_congr_sanitize (p q : WrapParams)
    (h1 : p.containerWidth.sanitize = q.containerWidth.sanitize)
    (h2 : p.leftWidth.sanitize = q.leftWidth.sanitize)
    (h3 : p.rightWidth.sanitize = q.rightWidth.sanitize)
    (h4 : p.centerContentWidth.sanitize = q.centerContentWidth.sanitize)
    (h5 : p.gap.sanitize = q.gap.sanitize) :
    shouldWrapCenter p = shouldWrapCenter q := by
  simp only [shouldWrapCenter, h1, h2, h3, h4, h5]

/-- Claim C6: for each of the five fields, a snapshot carrying a non-finite
value (`NaN`, `+Infinity` or `-Infinity`) in that field decides exactly as the
snapshot carrying a finite `0` there — non-finite inputs never reach the
decision arithmetic. -/
theorem C6_nonfinite_sanitization :
    (∀ p : WrapParams, p.containerWidth.isFinite = false →
       shouldWrapCenter p = shouldWrapCenter { p with containerWidth := .finite 0 }) ∧
    (∀ p : WrapParams, p.leftWidth.isFinite = false →
       shouldWrapCenter p = shouldWrapCenter { p with leftWidth := .finite 0 }) ∧
    (∀ p : WrapParams, p.rightWidth.isFinite = false →
       shouldWrapCenter p = shouldWrapCenter { p with rightWidth := .finite 0 }) ∧
    (∀ p : WrapParams, p.centerContentWidth.isFinite = false →
       shouldWrapCenter p = shouldWrapCenter { p with centerContentWidth := .finite 0 }) ∧
    (∀ p : WrapParams, p.gap.isFinite = false →
       shouldWrapCenter p = shouldWrapCenter { p with gap := .finite 0 }) := by
  refine ⟨fun p h => ?_, fun p h => ?_, fun p h => ?_, fun p h => ?_, fun p h => ?_⟩
  · exact shouldWrapCenter_congr_sanitize _ _
      (by rw [sanitize_eq_zero_of_not_finite _ h]; rfl) rfl rfl rfl rfl
  · exact shouldWrapCenter_congr_sanitize _ _
      rfl (by rw [sanitize_eq_zero_of_not_finite _ h]; rfl) rfl rfl rfl
  · exact shouldWrapCenter_congr_sanitize _ _
      rfl rfl (by rw [sanitize_eq_zero_of_not_finite _ h]; rfl) rfl rfl
  · exact shouldWrapCenter_congr_sanitize _ _
      rfl rfl rfl (by rw [sanitize_eq_zero_of_not_finite _ h]; rfl) rfl
  · exact shouldWrapCenter_congr_sanitize _ _
      rfl rfl rfl rfl (by rw [sanitize_eq_zero_of_not_finite _ h]; rfl)

theorem C6_nonfinite_sanitization_witness :
    (JSNum.nan.isFinite = false) ∧
      shouldWrapCenter
          { containerWidth := .nan, leftWidth := .finite 1, rightWidth := .finite 1,
            centerContentWidth := .finite 1, gap := .finite 1 } =
        shouldWrapCenter
          { containerWidth := .finite 0, leftWidth := .finite 1, rightWidth := .finite 1,
            centerContentWidth := .finite 1, gap := .finite 1 } :=
  ⟨rfl,
    C6_nonfinite_sanitization.1
      { containerWidth := .nan, leftWidth := .finite 1, rightWidth := .finite 1,
        centerContentWidth := .finite 1, gap := .finite 1 } rfl⟩

/-- A computed CSS style string as far as the measurement code inspects it:
empty (falsy), the keyword `auto`, a string whose leading numeric part parses
to the finite number `q` (computed lengths are resolved px values, so
`parseFloat` never yields `±Infinity` on them), or a string with no leading
number (`parseFloat` yields `NaN`, e.g. the keyword `normal`). -/
inductive CssValue where
  | empty
  | auto
  | px (q : ℚ)
  | unparsable
deriving DecidableEq

/-- `Number.parseFloat` on a computed style string; `none` is `NaN`. -/
def jsParseFloat : CssValue → Option ℚ
  | .px q => some q
  | _ => none

/-- Embedding of `getPxNumber` (lines 47-52): `undefined` on an empty string,
on `auto`, and on a parse that is not finite; otherwise the parsed number. -/
def getPxNumber (value : CssValue) : Option ℚ :=
  match value with
  | .empty => none
  | .auto => none
  | v => jsParseFloat v

/-- The JavaScript expression `a || b` on a `parseFloat` result `a` and a
number `b`: `NaN` and `0` are falsy and fall through to `b`. -/
def jsNumOr (a : Option ℚ) (b : ℚ) : ℚ :=
  match a with
  | some q => if q = 0 then b else q
  | none => b

/-- The resolved style of a direct child of a flexible row. -/
structure ChildStyle where
  minWidth : CssValue
  marginLeft : CssValue
  marginRight : CssValue
deriving DecidableEq

/-- A direct `HTMLElement` child of a flexible row: its resolved style and its
`getBoundingClientRect().width`. -/
structure ChildElement where
  style : ChildStyle
  boundingWidth : ℚ
deriving DecidableEq

/-- The gap-related fields of a computed style
(`columnGap`, `gap`, `rowGap`). -/
structure FlexContainerStyle where
  columnGap : CssValue
  gap : CssValue
  rowGap : CssValue
deriving DecidableEq

/-- A flexible-row container: its computed style and its direct element
children. -/
structure FlexContainer where
  style : FlexContainerStyle
  children : List ChildElement
deriving DecidableEq

/-- The gap read at the top of `measureMinWidthOfFlexRow` (lines 56-60): the
`??`-chain `columnGap ?? gap ?? rowGap ?? 0` over `getPxNumber` results — only
an undefined parse falls through, a parsed `0` is kept. -/
def cssGapOfFlexRow (containerStyle : FlexContainerStyle) : ℚ :=
  match getPxNumber containerStyle.columnGap with
  | some g => g
  | none =>
    match getPxNumber containerStyle.gap with
    | some g => g
    | none =>
      match getPxNumber containerStyle.rowGap with
      | some g => g
      | none => 0

/-- One child's contribution to the flexible row (lines 68-76):
`max(0, minWidth ?? renderedWidth) + max(0, marginLeft) + max(0, marginRight)`. -/
def childMinContribution (child : ChildElement) : ℚ :=
  let minWidth :=
    match getPxNumber child.style.minWidth with
    | some w => w
    | none => child.boundingWidth
  let marginLeft :=
    match getPxNumber child.style.marginLeft with
    | some m => m
    | none => 0
  let marginRight :=
    match getPxNumber child.style.marginRight with
    | some m => m
    | none => 0
  max 0 minWidth + max 0 marginLeft + max 0 marginRight

/-- Embedding of `measureMinWidthOfFlexRow` (lines 54-80): `0` for a childless
container, otherwise the summed child contributions plus
`gap * (children.length - 1)`. -/
def measureMinWidthOfFlexRow (containerEl : FlexContainer) : ℚ :=
  let gap := cssGapOfFlexRow containerEl.style
  let children := containerEl.children
  if children.length = 0 then 0
  else
    (children.foldl (fun total child => total + childMinContribution child) 0) +
      gap * ((children.length : ℚ) - 1)

/-- Embedding of `getGapPx` (lines 82-85):
`parseFloat(columnGap) || parseFloat(gap) || 0`. -/
def getGapPx (computed : FlexContainerStyle) : ℚ :=
  jsNumOr (jsParseFloat computed.columnGap) (jsNumOr (jsParseFloat computed.gap) 0)

/-- The `scrollWidth` of a fixed sub-part element. -/
structure FixedEl where
  scrollWidth : ℚ
deriving DecidableEq

/-- Embedding of `measureFixedPlusFlexibleWidth` (lines 87-97): the fixed
sub-part's `scrollWidth` (or `0`), plus the section gap when both sub-parts
are present (or `0`), plus the flexible row's measured minimum (or `0`). -/
def measureFixedPlusFlexibleWidth (sectionStyle : FlexContainerStyle)
    (fixedEl : Option FixedEl) (flexibleEl : Option FlexContainer) : ℚ :=
  let fixedWidth :=
    match fixedEl with
    | some el => el.scrollWidth
    | none => 0
  let flexibleWidth :=
    match flexibleEl with
    | some el => measureMinWidthOfFlexRow el
    | none => 0
  let gap :=
    match fixedEl, flexibleEl with
    | some _, some _ => getGapPx sectionStyle
    | _, _ => 0
  fixedWidth + gap + flexibleWidth

/-- The flexible-row width as the specification words it: the sum over the
direct children of `max(0, minWidth ?? renderedWidth) + max(0, marginLeft) +
max(0, marginRight)`, plus the row gap times the number of inter-child gaps
(`childCount - 1`, which is `0` when there are no children). -/
def specFlexRowWidth (gap : ℚ) (children : List ChildElement) : ℚ :=
  (children.map childMinContribution).sum + gap * ((children.length - 1 : ℕ) : ℚ)

theorem foldl_add_childMinContribution (l : List ChildElement) (a : ℚ) :
    l.foldl (fun total child => total + childMinContribution child) a =
      a + (l.map childMinContribution).sum := by
  induction l generalizing a with
  | nil => simp
  | cons c t ih =>
    simp only [List.foldl_cons, List.map_cons, List.sum_cons, ih]
    ring

theorem measureMinWidthOfFlexRow_eq_spec (fe : FlexContainer) :
    measureMinWidthOfFlexRow fe =
      specFlexRowWidth (cssGapOfFlexRow fe.style) fe.children := by
  unfold measureMinWidthOfFlexRow specFlexRowWidth
  by_cases h : fe.children.length = 0
  · have he : fe.children = [] := List.length_eq_zero.mp h
    simp [he]
  · rw [if_neg h, foldl_add_childMinContribution]
    have h1 : 1 ≤ fe.children.length := Nat.one_le_iff_ne_zero.mpr h
    rw [Nat.cast_sub h1]
    push_cast
    ring

/-- Claim C8: the region measurer contract — a region exposing only a
flexible sub-part measures as the spec's per-child formula plus inter-child
gaps; a region exposing both sub-parts measures as `fixed + gap + flexible`; a
region exposing neither measures `0`; and the inter-sub-part gap is added only
when both sub-parts are present (a fixed-only region measures just its
`scrollWidth`). -/
theorem C8_region_measurer_contract :
    (∀ (s : FlexContainerStyle) (fe : FlexContainer),
       measureFixedPlusFlexibleWidth s none (some fe) =
         specFlexRowWidth (cssGapOfFlexRow fe.style) fe.children) ∧
    (∀ (s : FlexContainerStyle) (fx : FixedEl) (fe : FlexContainer),
       measureFixedPlusFlexibleWidth s (some fx) (some fe) =
         fx.scrollWidth + getGapPx s +
           specFlexRowWidth (cssGapOfFlexRow fe.style) fe.children) ∧
    (∀ s : FlexContainerStyle, measureFixedPlusFlexibleWidth s none none = 0) ∧
    (∀ (s : FlexContainerStyle) (fx : FixedEl),
       measureFixedPlusFlexibleWidth s (some fx) none = fx.scrollWidth) := by
  refine ⟨fun s fe => ?_, fun s fx fe => ?_, fun s => ?_, fun s fx => ?_⟩ <;>
    simp [measureFixedPlusFlexibleWidth, measureMinWidthOfFlexRow_eq_spec]

/-- Claim C9: a flexible row with no direct element children measures exactly
`0` — the `gap * (childCount - 1)` term is never evaluated at `childCount = 0`,
so the result is never `-gap`. -/
theorem C9_empty_flex_row (fe : FlexContainer) (h : fe.children = []) :
    measureMinWidthOfFlexRow fe = 0 := by
  simp [measureMinWidthOfFlexRow, h]

theorem C9_empty_flex_row_witness :
    (FlexContainer.mk (FlexContainerStyle.mk (.px 5) .empty .empty) []).children = [] ∧
      measureMinWidthOfFlexRow
        (FlexContainer.mk (FlexContainerStyle.mk (.px 5) .empty .empty) []) = 0 :=
  ⟨rfl, C9_empty_flex_row (FlexContainer.mk (FlexContainerStyle.mk (.px 5) .empty .empty) []) rfl⟩

/-- The left or right section as `updateCenterWrapState` reads it: the
section's computed style (for `getGapPx`) and the optional fixed and flexible
sub-elements found by `querySelector`. -/
structure SectionDom where
  style : FlexContainerStyle
  fixedEl : Option FixedEl
  flexibleEl : Option FlexContainer
deriving DecidableEq

/-- The DOM geometry one recomputation pass of the designer header reads:
container bounding width and computed paddings/gaps, the optional
`.back-btn-container` bounding width, the center-inner query result
(direct child count, `none` when the inner node is absent) and
`scrollWidth`, and the two outer sections. `gapShorthand` is the computed
`gap` property. -/
structure HeaderDom where
  containerRectWidth : ℚ
  paddingLeft : CssValue
  paddingRight : CssValue
  columnGap : CssValue
  gapShorthand : CssValue
  backEl : Option ℚ
  centerInnerChildCount : Option ℕ
  centerInnerScrollWidth : ℚ
  leftSection : SectionDom
  rightSection : SectionDom
deriving DecidableEq

/-- The container's content-box width (lines 273-279):
`max(0, rect.width - (parseFloat(paddingLeft) || 0) - (parseFloat(paddingRight) || 0))`. -/
def containerContentWidth (d : HeaderDom) : ℚ :=
  let paddingLeft := jsNumOr (jsParseFloat d.paddingLeft) 0
  let paddingRight := jsNumOr (jsParseFloat d.paddingRight) 0
  max 0 (d.containerRectWidth - paddingLeft - paddingRight)

/-- The gap entering the measurement snapshot (line 280):
`parseFloat(columnGap) || parseFloat(gap) || 8`. -/
def snapshotGap (d : HeaderDom) : ℚ :=
  jsNumOr (jsParseFloat d.columnGap) (jsNumOr (jsParseFloat d.gapShorthand) 8)

/-- The width handed to the decision function (lines 285-287): the content-box
width minus the back column's bounding width (`0` when `.back-btn-container`
is absent) minus one gap, clamped at `0`. -/
def availableForLeftCenterRight (d : HeaderDom) : ℚ :=
  let backWidth :=
    match d.backEl with
    | some w => w
    | none => 0
  max 0 (containerContentWidth d - backWidth - snapshotGap d)

/-- The measurement of one outer section (lines 289-299). -/
def measureSection (sec : SectionDom) : ℚ :=
  measureFixedPlusFlexibleWidth sec.style sec.fixedEl sec.flexibleEl

/-- The snapshot `updateCenterWrapState` builds and passes to
`shouldWrapCenter` (lines 301-307). -/
def buildSnapshot (d : HeaderDom) : WrapParams :=
  { containerWidth := .finite (availableForLeftCenterRight d)
    leftWidth := .finite (measureSection d.leftSection)
    rightWidth := .finite (measureSection d.rightSection)
    centerContentWidth := .finite d.centerInnerScrollWidth
    gap := .finite (snapshotGap d) }

/-- The two presentation classes the controller toggles on the container
(`lds-designer-header-center-wrap` and `lds-designer-header-measuring`). -/
structure HeaderClasses where
  centerWrap : Bool
  measuring : Bool
deriving DecidableEq

/-- The mutable state of one header instance: the container's presentation
classes, the `hasCenterContent` field, the `layoutUpdateScheduled` flag, how
many deferred `setTimeout` callbacks are queued but not yet run, and whether
the `ResizeObserver` is still connected. -/
structure HeaderState where
  classes : HeaderClasses
  hasCenterContent : Bool
  layoutUpdateScheduled : Bool
  pendingTimeouts : ℕ
  observerConnected : Bool
deriving DecidableEq

/-- The presence check of `updateCenterContentPresence` (lines 233-239):
`innerEl ? innerEl.children.length > 0 : false`. -/
def hasCenterContentOf (d : HeaderDom) : Bool :=
  match d.centerInnerChildCount with
  | some n => decide (0 < n)
  | none => false

/-- Embedding of `updateCenterContentPresence` (lines 233-239). -/
def updateCenterContentPresence (d : HeaderDom) (s : HeaderState) : HeaderState :=
  { s with hasCenterContent := hasCenterContentOf d }

/-- Embedding of `updateCenterWrapState` (lines 254-311): with no center
content both classes are cleared; otherwise the layout is forced to the
neutral single-row hypothesis (wrap class off, measuring class on), the
snapshot is measured and decided, and finally the measuring class is removed
and the wrap class is toggled to the decision. -/
def updateCenterWrapState (d : HeaderDom) (s : HeaderState) : HeaderState :=
  if !s.hasCenterContent then
    { s with classes := { centerWrap := false, measuring := false } }
  else
    let s1 := { s with classes := { centerWrap := false, measuring := true } }
    let shouldWrap := shouldWrapCenter (buildSnapshot d)
    { s1 with classes := { centerWrap := shouldWrap, measuring := false } }

/-- Embedding of `scheduleLayoutCheck` (lines 241-252; identical in
topbar.component.ts lines 189-199): a notification is dropped while
`layoutUpdateScheduled` is set, otherwise the flag is raised and one deferred
callback is queued. -/
def scheduleLayoutCheck (s : HeaderState) : HeaderState :=
  if s.layoutUpdateScheduled then s
  else { s with layoutUpdateScheduled := true, pendingTimeouts := s.pendingTimeouts + 1 }

/-- The first statement of the deferred callback (line 247): the flag is
cleared (and the queued callback consumed) before any measurement work. -/
def clearScheduledFlag (s : HeaderState) : HeaderState :=
  { s with layoutUpdateScheduled := false, pendingTimeouts := s.pendingTimeouts - 1 }

/-- Embedding of the deferred `setTimeout` body (lines 246-250): clear the
flag, refresh the presence bit, then run the measurement pass. -/
def layoutTimeoutCallback (d : HeaderDom) (s : HeaderState) : HeaderState :=
  updateCenterWrapState d (updateCenterContentPresence d (clearScheduledFlag s))

/-- Embedding of `ngOnDestroy` (lines 224-226): the only effect is
`resizeObserver?.disconnect()`. -/
def ngOnDestroy (s : HeaderState) : HeaderState :=
  { s with observerConnected := false }

/-- Embedding of `onWindowResize` (lines 228-231): it just schedules. -/
def onWindowResize (s : HeaderState) : HeaderState :=
  scheduleLayoutCheck s

/-- `n` size-change notifications delivered in sequence within one turn (each
one, element resize or window resize, invokes `scheduleLayoutCheck`). -/
def notifyTimes : ℕ → HeaderState → HeaderState
  | 0, s => s
  | n + 1, s => notifyTimes n (scheduleLayoutCheck s)

/-- A section with no fixed and no flexible sub-part. -/
def sampleSection : SectionDom :=
  { style := { columnGap := .px 8, gap := .empty, rowGap := .empty }
    fixedEl := none
    flexibleEl := none }

/-- A concrete header DOM with no `.back-btn-container`, content-box width
`100` and column gap `8`. -/
def sampleNoBackDom : HeaderDom :=
  { containerRectWidth := 100
    paddingLeft := .px 0
    paddingRight := .px 0
    columnGap := .px 8
    gapShorthand := .empty
    backEl := none
    centerInnerChildCount := some 1
    centerInnerScrollWidth := 10
    leftSection := sampleSection
    rightSection := sampleSection }

/-- A header DOM whose center-inner node has no children. -/
def sampleEmptyCenterDom : HeaderDom :=
  { sampleNoBackDom with centerInnerChildCount := some 0 }

/-- A header DOM whose computed column-gap is `0` and whose `gap` shorthand
does not parse to a number. -/
def sampleZeroGapDom : HeaderDom :=
  { sampleNoBackDom with columnGap := .px 0, gapShorthand := .auto }

/-- An instance that currently shows the wrapped layout and has one
recomputation scheduled but not yet executed. -/
def samplePendingState : HeaderState :=
  { classes := { centerWrap := true, measuring := false }
    hasCenterContent := true
    layoutUpdateScheduled := true
    pendingTimeouts := 1
    observerConnected := true }

/-- An idle instance: nothing scheduled, nothing queued. -/
def sampleIdleState : HeaderState :=
  { classes := { centerWrap := false, measuring := false }
    hasCenterContent := true
    layoutUpdateScheduled := false
    pendingTimeouts := 0
    observerConnected := true }

/-- Claim C4 fails on the code: `ngOnDestroy` only disconnects the observer —
no destroyed flag exists — so a recomputation scheduled before teardown still
executes and mutates the presentation state.  Concretely: an instance showing
the wrap class is destroyed with one callback pending; when that callback
runs it clears the wrap class, so the execution was not a no-op. -/
theorem C4_teardown_counterexample :
    samplePendingState.layoutUpdateScheduled = true ∧
      (ngOnDestroy samplePendingState).classes.centerWrap = true ∧
      (layoutTimeoutCallback sampleEmptyCenterDom
          (ngOnDestroy samplePendingState)).classes.centerWrap = false :=
  ⟨rfl, rfl, rfl⟩

/-- Claim C4 as amended: teardown only disconnects the resize observer; it
neither cancels nor guards the pending callback.  A recomputation scheduled
before `ngOnDestroy` still executes afterwards and updates the
wrapped/measuring presentation state exactly as it would on a live instance
(destruction and the callback commute on every field the callback writes). -/
theorem C4_teardown_amended (d : HeaderDom) (s : HeaderState) :
    (ngOnDestroy s).observerConnected = false ∧
    (ngOnDestroy s).layoutUpdateScheduled = s.layoutUpdateScheduled ∧
    (ngOnDestroy s).pendingTimeouts = s.pendingTimeouts ∧
    (layoutTimeoutCallback d (ngOnDestroy s)).classes =
      (layoutTimeoutCallback d s).classes ∧
    (layoutTimeoutCallback d (ngOnDestroy s)).hasCenterContent =
      (layoutTimeoutCallback d s).hasCenterContent := by
  refine ⟨rfl, rfl, rfl, ?_, ?_⟩ <;>
  · unfold layoutTimeoutCallback updateCenterWrapState updateCenterContentPresence
      clearScheduledFlag ngOnDestroy
    by_cases h : hasCenterContentOf d <;> simp [h]

theorem scheduleLayoutCheck_of_scheduled (s : HeaderState)
    (h : s.layoutUpdateScheduled = true) : scheduleLayoutCheck s = s := by
  simp [scheduleLayoutCheck, h]

theorem notifyTimes_of_scheduled (n : ℕ) (s : HeaderState)
    (h : s.layoutUpdateScheduled = true) : notifyTimes n s = s := by
  induction n with
  | zero => rfl
  | succ k ih => rw [notifyTimes, scheduleLayoutCheck_of_scheduled s h, ih]

theorem scheduleLayoutCheck_flag (s : HeaderState) (h : s.layoutUpdateScheduled = false) :
    (scheduleLayoutCheck s).layoutUpdateScheduled = true := by
  simp [scheduleLayoutCheck, h]

theorem notifyTimes_pos_eq (N : ℕ) (hN : 1 ≤ N) (s : HeaderState)
    (h : s.layoutUpdateScheduled = false) :
    notifyTimes N s = scheduleLayoutCheck s := by
  obtain ⟨m, rfl⟩ : ∃ m, N = m + 1 := ⟨N - 1, by omega⟩
  rw [notifyTimes]
  exact notifyTimes_of_scheduled m _ (scheduleLayoutCheck_flag s h)

theorem updateCenterWrapState_pendingTimeouts (d : HeaderDom) (t : HeaderState) :
    (updateCenterWrapState d t).pendingTimeouts = t.pendingTimeouts := by
  unfold updateCenterWrapState
  split <;> rfl

/-- Claim C5: from an idle instance, any burst of `N ≥ 1` size-change
notifications within one turn raises the flag and queues exactly one deferred
recomputation; at every point of the burst at most one is queued; a further
notification while pending is dropped; the callback clears the flag before
any measurement work runs; executing the single callback drains the queue;
and only once execution has begun is a new notification accepted again. -/
theorem C5_scheduler_coalescing (N k : ℕ) (d : HeaderDom) (s : HeaderState)
    (hN : 1 ≤ N) (hflag : s.layoutUpdateScheduled = false)
    (hqueue : s.pendingTimeouts = 0) :
    (notifyTimes N s).pendingTimeouts = 1 ∧
    (notifyTimes N s).layoutUpdateScheduled = true ∧
    (notifyTimes k s).pendingTimeouts ≤ 1 ∧
    scheduleLayoutCheck (notifyTimes N s) = notifyTimes N s ∧
    layoutTimeoutCallback d (notifyTimes N s) =
      updateCenterWrapState d
        (updateCenterContentPresence d (clearScheduledFlag (notifyTimes N s))) ∧
    (clearScheduledFlag (notifyTimes N s)).layoutUpdateScheduled = false ∧
    (layoutTimeoutCallback d (notifyTimes N s)).pendingTimeouts = 0 ∧
    (scheduleLayoutCheck (clearScheduledFlag (notifyTimes N s))).layoutUpdateScheduled
      = true := by
  have hsched : notifyTimes N s = scheduleLayoutCheck s := notifyTimes_pos_eq N hN s hflag
  have hpend : (scheduleLayoutCheck s).pendingTimeouts = 1 := by
    simp [scheduleLayoutCheck, hflag, hqueue]
  have hflag' : (scheduleLayoutCheck s).layoutUpdateScheduled = true :=
    scheduleLayoutCheck_flag s hflag
  refine ⟨hsched ▸ hpend, hsched ▸ hflag', ?_, ?_, rfl, ?_, ?_, ?_⟩
  · cases k with
    | zero => simp [notifyTimes, hqueue]
    | succ m =>
      rw [notifyTimes_pos_eq (m + 1) (by omega) s hflag, hpend]
  · rw [hsched]
    exact scheduleLayoutCheck_of_scheduled _ hflag'
  · rfl
  · rw [layoutTimeoutCallback, updateCenterWrapState_pendingTimeouts, hsched]
    simp [updateCenterContentPresence, clearScheduledFlag, hpend]
  · rfl

theorem C5_scheduler_coalescing_witness :
    1 ≤ 3 ∧ sampleIdleState.layoutUpdateScheduled = false ∧
      sampleIdleState.pendingTimeouts = 0 ∧
      (notifyTimes 3 sampleIdleState).pendingTimeouts = 1 ∧
      (notifyTimes 3 sampleIdleState).layoutUpdateScheduled = true ∧
      (notifyTimes 2 sampleIdleState).pendingTimeouts ≤ 1 ∧
      (layoutTimeoutCallback sampleNoBackDom (notifyTimes 3 sampleIdleState)).pendingTimeouts
        = 0 :=
  have h := C5_scheduler_coalescing 3 2 sampleNoBackDom sampleIdleState
    (by omega) rfl rfl
  ⟨by omega, rfl, rfl, h.1, h.2.1, h.2.2.1, h.2.2.2.2.2.2.1⟩

/-- Claim C7 fails on its tie of the gap subtraction to the back column: with
no `.back-btn-container` in the DOM, a content-box width of `100` and a gap of
`8`, the width handed to the decision function is `92` — the code subtracts
one gap unconditionally, back column or not. -/
theorem C7_back_column_counterexample :
    sampleNoBackDom.backEl = none ∧
      containerContentWidth sampleNoBackDom = 100 ∧
      snapshotGap sampleNoBackDom = 8 ∧
      availableForLeftCenterRight sampleNoBackDom = 92 := by
  refine ⟨rfl, ?_, rfl, ?_⟩ <;>
    norm_num [availableForLeftCenterRight, containerContentWidth, snapshotGap,
      jsNumOr, jsParseFloat, sampleNoBackDom]

/-- Claim C7 as amended: the width handed to the decision function is the
content-box width minus the back column's width — `0` when the column is
absent — minus one gap, clamped at `0`; the gap is subtracted
unconditionally, only the width subtraction is tied to the column's
presence. -/
theorem C7_back_column_amended (d : HeaderDom) :
    (∀ bw : ℚ, d.backEl = some bw →
       availableForLeftCenterRight d =
         max 0 (containerContentWidth d - bw - snapshotGap d)) ∧
    (d.backEl = none →
       availableForLeftCenterRight d =
         max 0 (containerContentWidth d - snapshotGap d)) := by
  constructor
  · intro bw hb
    simp [availableForLeftCenterRight, hb]
  · intro hb
    simp [availableForLeftCenterRight, hb]

theorem C7_back_column_amended_witness :
    sampleNoBackDom.backEl = none ∧
      availableForLeftCenterRight sampleNoBackDom =
        max 0 (containerContentWidth sampleNoBackDom - snapshotGap sampleNoBackDom) :=
  ⟨rfl, (C7_back_column_amended sampleNoBackDom).2 rfl⟩

/-- Claim C10: in the snapshot gap `parseFloat(columnGap) || parseFloat(gap)
|| 8`, whenever both reads parse to `0` or to no number the hard-coded
default `8` is used — a container whose actual column gap is `0` is measured
as having gap `8` — and no snapshot the controller builds ever carries gap
`0`. -/
theorem C10_gap_default :
    (∀ d : HeaderDom,
       (jsParseFloat d.columnGap = none ∨ jsParseFloat d.columnGap = some 0) →
       (jsParseFloat d.gapShorthand = none ∨ jsParseFloat d.gapShorthand = some 0) →
       snapshotGap d = 8) ∧
    ∀ d : HeaderDom, snapshotGap d ≠ 0 := by
  constructor
  · intro d h1 h2
    rcases h1 with h1 | h1 <;> rcases h2 with h2 | h2 <;>
      simp [snapshotGap, h1, h2, jsNumOr]
  · intro d
    unfold snapshotGap jsNumOr
    rcases jsParseFloat d.columnGap with _ | q
    · rcases jsParseFloat d.gapShorthand with _ | p
      · norm_num
      · by_cases hp : p = 0 <;> simp [hp]
    · by_cases hq : q = 0
      · rcases jsParseFloat d.gapShorthand with _ | p
        · simp [hq]
        · by_cases hp : p = 0 <;> simp [hq, hp]
      · simp [hq]

theorem C10_gap_default_witness :
    (jsParseFloat sampleZeroGapDom.columnGap = none ∨
       jsParseFloat sampleZeroGapDom.columnGap = some 0) ∧
      (jsParseFloat sampleZeroGapDom.gapShorthand = none ∨
       jsParseFloat sampleZeroGapDom.gapShorthand = some 0) ∧
      snapshotGap sampleZeroGapDom = 8 :=
  ⟨Or.inr rfl, Or.inl rfl, C10_gap_default.1 sampleZeroGapDom (Or.inr rfl) (Or.inl rfl)⟩
